import Mathlib

/-!
Verification of the RustyBoy peripheral-register and debugger model.

Shallow embedding of src/src/io.rs, src/src/video.rs and src/src/emulator.rs.
Machine bytes (u8) are modelled as Nat; where a Rust function can panic the
Lean model returns an Option, with none standing for the panic.
-/

/-! ## Interrupt controller (src/src/io.rs, struct Interrupt) -/

structure Interrupt where
  enabled_vblank : Bool
  enabled_lcdstat : Bool
  enabled_timer : Bool
  enabled_serial : Bool
  enabled_joypad : Bool
  flagged_vblank : Bool
  flagged_lcdstat : Bool
  flagged_timer : Bool
  flagged_serial : Bool
  flagged_joypad : Bool
deriving DecidableEq

/-- Derive(Default) on struct Interrupt: every Bool field defaults to false. -/
def Interrupt.default : Interrupt :=
  ⟨false, false, false, false, false, false, false, false, false, false⟩

def INTERRUPT_VBLANK_MASK : Nat := 0b00000001
def INTERRUPT_LCDSTAT_MASK : Nat := 0b00000010
def INTERRUPT_TIMER_MASK : Nat := 0b00000100
def INTERRUPT_SERIAL_MASK : Nat := 0b00001000
def INTERRUPT_JOYPAD_MASK : Nat := 0b00010000

/-- Interrupt::write_flags: each flagged bool is overwritten from the
corresponding bit of val. -/
def Interrupt.write_flags (i : Interrupt) (val : Nat) : Interrupt :=
  { i with
    flagged_vblank := if val &&& INTERRUPT_VBLANK_MASK ≠ 0 then true else false
    flagged_lcdstat := if val &&& INTERRUPT_LCDSTAT_MASK ≠ 0 then true else false
    flagged_timer := if val &&& INTERRUPT_TIMER_MASK ≠ 0 then true else false
    flagged_serial := if val &&& INTERRUPT_SERIAL_MASK ≠ 0 then true else false
    flagged_joypad := if val &&& INTERRUPT_JOYPAD_MASK ≠ 0 then true else false }

/-- Interrupt::write_enable: each enabled bool is overwritten from the
corresponding bit of val. -/
def Interrupt.write_enable (i : Interrupt) (val : Nat) : Interrupt :=
  { i with
    enabled_vblank := if val &&& INTERRUPT_VBLANK_MASK ≠ 0 then true else false
    enabled_lcdstat := if val &&& INTERRUPT_LCDSTAT_MASK ≠ 0 then true else false
    enabled_timer := if val &&& INTERRUPT_TIMER_MASK ≠ 0 then true else false
    enabled_serial := if val &&& INTERRUPT_SERIAL_MASK ≠ 0 then true else false
    enabled_joypad := if val &&& INTERRUPT_JOYPAD_MASK ≠ 0 then true else false }

/-- Interrupt::read_flags: sum of the masks of the set flagged bools. -/
def Interrupt.read_flags (i : Interrupt) : Nat :=
  0 +
  (if i.flagged_vblank then INTERRUPT_VBLANK_MASK else 0) +
  (if i.flagged_lcdstat then INTERRUPT_LCDSTAT_MASK else 0) +
  (if i.flagged_timer then INTERRUPT_TIMER_MASK else 0) +
  (if i.flagged_serial then INTERRUPT_SERIAL_MASK else 0) +
  (if i.flagged_joypad then INTERRUPT_JOYPAD_MASK else 0)

/-- Interrupt::read_enable: sum of the masks of the set enabled bools. -/
def Interrupt.read_enable (i : Interrupt) : Nat :=
  0 +
  (if i.enabled_vblank then INTERRUPT_VBLANK_MASK else 0) +
  (if i.enabled_lcdstat then INTERRUPT_LCDSTAT_MASK else 0) +
  (if i.enabled_timer then INTERRUPT_TIMER_MASK else 0) +
  (if i.enabled_serial then INTERRUPT_SERIAL_MASK else 0) +
  (if i.enabled_joypad then INTERRUPT_JOYPAD_MASK else 0)

/-! ## Joypad multiplexer (src/src/io.rs, struct Joypad) -/

inductive SelectedInput where
  | Direction
  | Buttons
deriving DecidableEq

structure Joypad where
  selected_input : SelectedInput
  input_up : Bool
  input_down : Bool
  input_left : Bool
  input_right : Bool
  input_a : Bool
  input_b : Bool
  input_start : Bool
  input_select : Bool
deriving DecidableEq

/-- Default for Joypad: Direction selected, all inputs false. -/
def Joypad.default : Joypad :=
  ⟨SelectedInput.Direction, false, false, false, false, false, false, false, false⟩

def SELECT_BUTTONS_MASK : Nat := 0b00100000
def SELECT_DIRECTION_MASK : Nat := 0b00010000

def INPUT_RIGHT_VALUE : Nat := 0b00000001
def INPUT_LEFT_VALUE : Nat := 0b00000010
def INPUT_UP_VALUE : Nat := 0b00000100
def INPUT_DOWN_VALUE : Nat := 0b00001000

def INPUT_A_VALUE : Nat := INPUT_RIGHT_VALUE
def INPUT_B_VALUE : Nat := INPUT_LEFT_VALUE
def INPUT_SELECT_VALUE : Nat := INPUT_UP_VALUE
def INPUT_START_VALUE : Nat := INPUT_DOWN_VALUE

/-- Joypad::write_joypad: if the buttons-select bit is set the bank becomes
Buttons; else if the direction-select bit is set the bank becomes Direction;
otherwise nothing changes. -/
def Joypad.write_joypad (j : Joypad) (val : Nat) : Joypad :=
  if val &&& SELECT_BUTTONS_MASK ≠ 0 then
    { j with selected_input := SelectedInput.Buttons }
  else if val &&& SELECT_DIRECTION_MASK ≠ 0 then
    { j with selected_input := SelectedInput.Direction }
  else
    j

/-- Joypad::read_joypad: pack the four inputs of the selected bank into the
low nibble. -/
def Joypad.read_joypad (j : Joypad) : Nat :=
  match j.selected_input with
  | SelectedInput.Direction =>
    0 +
    (if j.input_right then INPUT_RIGHT_VALUE else 0) +
    (if j.input_left then INPUT_LEFT_VALUE else 0) +
    (if j.input_up then INPUT_UP_VALUE else 0) +
    (if j.input_down then INPUT_DOWN_VALUE else 0)
  | SelectedInput.Buttons =>
    0 +
    (if j.input_a then INPUT_A_VALUE else 0) +
    (if j.input_b then INPUT_B_VALUE else 0) +
    (if j.input_select then INPUT_SELECT_VALUE else 0) +
    (if j.input_start then INPUT_START_VALUE else 0)

/-! ## Peripheral register file (src/src/io.rs, struct GBIO)

The Sound, SerialData and (io.rs) PPU members are empty structs in the
source, carrying no state, so they are omitted from the record. -/

structure GBIO where
  interrupt : Interrupt
  joypad : Joypad
  boot : Bool
deriving DecidableEq

/-- GBIO::new: default sub-peripherals and boot flag true. -/
def GBIO.new : GBIO :=
  ⟨Interrupt.default, Joypad.default, true⟩

/-- GBIO::boot_sequence: determines if the system is in its boot sequence. -/
def GBIO.boot_sequence (g : GBIO) : Bool :=
  g.boot

/-- GBIO::write_byte. The arm for offset 0x50 is the assignment
boot = (val == 0). The sound range 0x10..=0x26 only prints and changes no
state. Unmatched offsets panic, modelled as none. -/
def GBIO.write_byte (g : GBIO) (addr val : Nat) : Option GBIO :=
  if addr = 0x00 then some { g with joypad := g.joypad.write_joypad val }
  else if 0x10 ≤ addr ∧ addr ≤ 0x26 then some g
  else if addr = 0x50 then some { g with boot := val == 0 }
  else if addr = 0x0F then some { g with interrupt := g.interrupt.write_flags val }
  else if addr = 0xFF then some { g with interrupt := g.interrupt.write_enable val }
  else none

/-- GBIO::read_byte. Unmatched offsets panic, modelled as none. -/
def GBIO.read_byte (g : GBIO) (addr : Nat) : Option Nat :=
  if addr = 0x00 then some g.joypad.read_joypad
  else if addr = 0x0F then some g.interrupt.read_flags
  else if addr = 0xFF then some g.interrupt.read_enable
  else none

/-! ## PPU register and attribute model (src/src/video.rs) -/

/-- Modelled from the spec: N_SPRITES is mem_map::SPRITE_RAM_LENGTH / 4; the
mem_map module is not part of src, and the spec fixes the table at 40 four-byte
entries (160 bytes of attribute memory). -/
def N_SPRITES : Nat := 40

/-- The four displayed colors. -/
inductive Color where
  | White
  | LightGray
  | DarkGray
  | Black
deriving DecidableEq

/-- Color::from_bits; an out-of-range value panics, modelled as none. -/
def Color.from_bits (val : Nat) : Option Color :=
  match val with
  | 0x00 => some Color.White
  | 0x01 => some Color.LightGray
  | 0x02 => some Color.DarkGray
  | 0x03 => some Color.Black
  | _ => none

def Color.to_bits : Color → Nat
  | Color.White => 0b00
  | Color.LightGray => 0b01
  | Color.DarkGray => 0b10
  | Color.Black => 0b11

/-- One [Color ; 4] palette array; field colorK is palette[K]. -/
structure Palette where
  color0 : Color
  color1 : Color
  color2 : Color
  color3 : Color
deriving DecidableEq

structure Sprite where
  position_y : Nat
  position_x : Nat
  tile_number : Nat
  priority : Bool
  flip_y : Bool
  flip_x : Bool
  palette : Nat
deriving DecidableEq

/-- Derive(Default) on struct Sprite. -/
def Sprite.default : Sprite :=
  ⟨0, 0, 0, false, false, false, 0⟩

def SPRITE_PRIORITY_MASK : Nat := 0b10000000
def SPRITE_FLIP_Y_MASK : Nat := 0b01000000
def SPRITE_FLIP_X_MASK : Nat := 0b00100000
def SPRITE_PALETTE_MASK : Nat := 0b00010000

def LCDC_LCD_DISPLAY_ENABLE_MASK : Nat := 0b10000000
def LCDC_WINDOW_TILE_MAP_ADDRESS_MASK : Nat := 0b01000000
def LCDC_WINDOW_DISPLAY_ENABLE_MASK : Nat := 0b00100000
def LCDC_BG_WINDOW_TILE_DATA_ADDRESS_MASK : Nat := 0b00010000
def LCDC_BG_TILE_MAP_ADDRESS_MASK : Nat := 0b00001000
def LCDC_SPRITE_SIZE_MASK : Nat := 0b00000100
def LCDC_SPRITE_DISPLAY_ENABLE_MASK : Nat := 0b00000010
def LCDC_BG_DISPLAY_ENABLE_MASK : Nat := 0b00000001

/-- The video-side PPU state. The vram byte array is omitted: its length comes
from the absent mem_map module and no register or sprite operation touches it.
The source keeps the two object palettes in a 2-array; they are the fields
object_palette_0 and object_palette_1 here. -/
structure PPU where
  sprite_ram : Fin N_SPRITES → Sprite
  lcd_display_enabled : Bool
  window_tile_map_address : Bool
  window_enabled : Bool
  background_window_tile_data_address : Bool
  background_tile_map_address : Bool
  sprite_size : Bool
  sprites_enabled : Bool
  background_enabled : Bool
  scroll_y : Nat
  scroll_x : Nat
  lcdc_y_coordinate : Nat
  ly_compare : Nat
  background_palette : Palette
  object_palette_0 : Palette
  object_palette_1 : Palette
  window_y_position : Nat
  window_x_position : Nat

/-- Default for PPU: default sprites, all flags false, zero coordinates,
all-White palettes. -/
def PPU.default : PPU where
  sprite_ram := fun _ => Sprite.default
  lcd_display_enabled := false
  window_tile_map_address := false
  window_enabled := false
  background_window_tile_data_address := false
  background_tile_map_address := false
  sprite_size := false
  sprites_enabled := false
  background_enabled := false
  scroll_y := 0
  scroll_x := 0
  lcdc_y_coordinate := 0
  ly_compare := 0
  background_palette := ⟨Color.White, Color.White, Color.White, Color.White⟩
  object_palette_0 := ⟨Color.White, Color.White, Color.White, Color.White⟩
  object_palette_1 := ⟨Color.White, Color.White, Color.White, Color.White⟩
  window_y_position := 0
  window_x_position := 0

/-- PPU::write_palette: split val into four 2-bit codes (low pair first) and
store the decoded colors; an invalid code panics inside Color::from_bits,
modelled as none (never reachable since every code is below 4). -/
def PPU.write_palette (val : Nat) : Option Palette :=
  let c0 := val &&& 0b00000011
  let c1 := (val &&& 0b00001100) >>> 2
  let c2 := (val &&& 0b00110000) >>> 4
  let c3 := (val &&& 0b11000000) >>> 6
  match Color.from_bits c0, Color.from_bits c1, Color.from_bits c2, Color.from_bits c3 with
  | some k0, some k1, some k2, some k3 => some ⟨k0, k1, k2, k3⟩
  | _, _, _, _ => none

/-- PPU::read_palette: repack the four entries, entry 0 in the low pair. -/
def PPU.read_palette (p : Palette) : Nat :=
  0 +
  Color.to_bits p.color0 +
  (Color.to_bits p.color1 <<< 2) +
  (Color.to_bits p.color2 <<< 4) +
  (Color.to_bits p.color3 <<< 6)

/-- PPU::write_lcd_control: every control flag is overwritten from its mask. -/
def PPU.write_lcd_control (p : PPU) (val : Nat) : PPU :=
  { p with
    lcd_display_enabled := if val &&& LCDC_LCD_DISPLAY_ENABLE_MASK ≠ 0 then true else false
    window_tile_map_address := if val &&& LCDC_WINDOW_TILE_MAP_ADDRESS_MASK ≠ 0 then true else false
    window_enabled := if val &&& LCDC_WINDOW_DISPLAY_ENABLE_MASK ≠ 0 then true else false
    background_window_tile_data_address := if val &&& LCDC_BG_WINDOW_TILE_DATA_ADDRESS_MASK ≠ 0 then true else false
    background_tile_map_address := if val &&& LCDC_BG_TILE_MAP_ADDRESS_MASK ≠ 0 then true else false
    sprite_size := if val &&& LCDC_SPRITE_SIZE_MASK ≠ 0 then true else false
    sprites_enabled := if val &&& LCDC_SPRITE_DISPLAY_ENABLE_MASK ≠ 0 then true else false
    background_enabled := if val &&& LCDC_BG_DISPLAY_ENABLE_MASK ≠ 0 then true else false }

/-- PPU::read_lcd_control: pack the eight control flags. In the source this
function exists but is never called from read_ppu. -/
def PPU.read_lcd_control (p : PPU) : Nat :=
  0 +
  (if p.lcd_display_enabled then LCDC_LCD_DISPLAY_ENABLE_MASK else 0) +
  (if p.window_tile_map_address then LCDC_WINDOW_TILE_MAP_ADDRESS_MASK else 0) +
  (if p.window_enabled then LCDC_WINDOW_DISPLAY_ENABLE_MASK else 0) +
  (if p.background_window_tile_data_address then LCDC_BG_WINDOW_TILE_DATA_ADDRESS_MASK else 0) +
  (if p.background_tile_map_address then LCDC_BG_TILE_MAP_ADDRESS_MASK else 0) +
  (if p.sprite_size then LCDC_SPRITE_SIZE_MASK else 0) +
  (if p.sprites_enabled then LCDC_SPRITE_DISPLAY_ENABLE_MASK else 0) +
  (if p.background_enabled then LCDC_BG_DISPLAY_ENABLE_MASK else 0)

/-- PPU::write_ppu; an unmatched address panics, modelled as none. -/
def PPU.write_ppu (p : PPU) (addr val : Nat) : Option PPU :=
  if addr = 0x40 then some (p.write_lcd_control val)
  else if addr = 0x42 then some { p with scroll_y := val }
  else if addr = 0x43 then some { p with scroll_x := val }
  else if addr = 0x45 then some { p with ly_compare := val }
  else if addr = 0x47 then (PPU.write_palette val).map fun pal => { p with background_palette := pal }
  else if addr = 0x48 then (PPU.write_palette val).map fun pal => { p with object_palette_0 := pal }
  else if addr = 0x49 then (PPU.write_palette val).map fun pal => { p with object_palette_1 := pal }
  else if addr = 0x4A then some { p with window_y_position := val }
  else if addr = 0x4B then some { p with window_x_position := val }
  else none

/-- PPU::read_ppu; an unmatched address (0x40 included: the source has no arm
for it) panics, modelled as none. -/
def PPU.read_ppu (p : PPU) (addr : Nat) : Option Nat :=
  if addr = 0x42 then some p.scroll_y
  else if addr = 0x43 then some p.scroll_x
  else if addr = 0x44 then some p.lcdc_y_coordinate
  else if addr = 0x45 then some p.ly_compare
  else if addr = 0x47 then some (PPU.read_palette p.background_palette)
  else if addr = 0x48 then some (PPU.read_palette p.object_palette_0)
  else if addr = 0x49 then some (PPU.read_palette p.object_palette_1)
  else if addr = 0x4A then some p.window_y_position
  else if addr = 0x4B then some p.window_x_position
  else none

/-- PPU::write_sprite_entry. The source copies the entry into a local variable
(Sprite is a Copy type), mutates that local copy, and never stores it back
into sprite_ram, so the PPU state is returned unchanged; an out-of-bounds
index panics, modelled as none. The attribute arm tests bit 7 for priority
and again bit 7 (not SPRITE_PALETTE_MASK) for the palette selector. -/
def PPU.write_sprite_entry (p : PPU) (addr val : Nat) : Option PPU :=
  let sprite_index := addr >>> 2
  let sprite_byte := addr &&& 0b11
  if h : sprite_index < N_SPRITES then
    let sprite := p.sprite_ram ⟨sprite_index, h⟩
    let _updated_local_copy :=
      match sprite_byte with
      | 0b00 => { sprite with position_y := val }
      | 0b01 => { sprite with position_x := val }
      | 0b10 => { sprite with tile_number := val }
      | 0b11 =>
        { sprite with
          priority := if val &&& 0b10000000 ≠ 0 then true else false
          flip_y := if val &&& 0b01000000 ≠ 0 then true else false
          flip_x := if val &&& 0b00100000 ≠ 0 then true else false
          palette := if val &&& 0b10000000 ≠ 0 then 1 else 0 }
      | _ => sprite
    some p
  else none

/-- PPU::read_sprite_entry; the attribute arm adds the raw palette number at
bit 0. An out-of-bounds index, or the unreachable fifth byte, panics,
modelled as none. -/
def PPU.read_sprite_entry (p : PPU) (addr : Nat) : Option Nat :=
  let sprite_index := addr >>> 2
  let sprite_byte := addr &&& 0b11
  if h : sprite_index < N_SPRITES then
    let sprite := p.sprite_ram ⟨sprite_index, h⟩
    match sprite_byte with
    | 0b00 => some sprite.position_y
    | 0b01 => some sprite.position_x
    | 0b10 => some sprite.tile_number
    | 0b11 => some (0 +
        (if sprite.priority then SPRITE_PRIORITY_MASK else 0) +
        (if sprite.flip_y then SPRITE_FLIP_Y_MASK else 0) +
        (if sprite.flip_x then SPRITE_FLIP_X_MASK else 0) +
        sprite.palette)
    | _ => none
  else none

/-! ## Execution controller (src/src/emulator.rs)

The Emulator owns a gb::GB processing core whose cpu module is not part of
src; as the spec prescribes, the core is treated as an opaque collaborator
exposing a single-instruction step operation and a program-counter
observation, so the debugger operations below are parametric in the core
state type. Breakpoints are a HashSet of addresses, modelled as a Finset. -/

/-- DebugCommand::SetBreakpoint(addr): toggle membership of addr in the
breakpoint set (present removes, absent inserts). -/
def setBreakpoint (bps : Finset Nat) (addr : Nat) : Finset Nat :=
  if addr ∈ bps then bps.erase addr else insert addr bps

/-- DebugCommand::Continue: while the program counter is not a breakpoint,
record the current program counter and single-step the core. The source
while loop is unbounded; fuel bounds the recursion, and the result carries
the final core state together with the addresses of the executed
instructions in order (the addresses the loop body prints). -/
def continueRun {σ : Type} (stepF : σ → σ) (pc : σ → Nat) (bps : Finset Nat) :
    Nat → σ → σ × List Nat
  | 0, s => (s, [])
  | Nat.succ fuel, s =>
    if pc s ∈ bps then (s, [])
    else
      let pc_of_inst := pc s
      let r := continueRun stepF pc bps fuel (stepF s)
      (r.1, pc_of_inst :: r.2)

/-! ## Claim theorems -/

/-- Claim C1 counterexample: on a fresh GBIO, writing 0x01 to offset 0x50 and
then writing 0 to offset 0x50 leaves boot_sequence() true, so a nonzero
write does not disable the boot flag permanently. -/
theorem C1_boot_counterexample :
    (( GBIO.new.write_byte 0x50 0x01).bind fun g => g.write_byte 0x50 0).map
      GBIO.boot_sequence = some true := by
  decide

/-- Claim C1 (amended): a write of v to peripheral offset 0x50 sets the boot
flag to (v == 0): any nonzero write makes boot_sequence() return false, but a
later write of 0 makes it return true again; the flag always tracks the last
value written to 0x50 and is not monotone. -/
theorem C1_boot_flag_tracks_last_write (g : GBIO) (v : Nat) :
    (g.write_byte 0x50 v).map GBIO.boot_sequence = some (v == 0) := by
  simp [ GBIO.write_byte, GBIO.boot_sequence]

/-- Claim C2 (code bug): on a fresh PPU, writing 1 at sprite offset 0 (entry
0, field Y) and reading back offset 0 yields 0, not the written 1:
write_sprite_entry mutates a local copy of the sprite and never stores it
back into sprite_ram. -/
theorem C2_sprite_write_lost :
    ((PPU.default.write_sprite_entry 0x00 0x01).bind fun p =>
      p.read_sprite_entry 0x00) = some 0 := by
  decide

/-- Claim C3 (code bug): on a fresh PPU every documented register address
except 0x40 reads successfully, but the read at 0x40 reaches the
unimplemented-register branch (read_ppu has no arm for 0x40 even though
read_lcd_control exists), contradicting the claim that LCDC is readable. -/
theorem C3_read_ppu_missing_lcdc :
    PPU.read_ppu PPU.default 0x40 = none ∧
    (PPU.read_ppu PPU.default 0x42).isSome = true ∧
    (PPU.read_ppu PPU.default 0x43).isSome = true ∧
    (PPU.read_ppu PPU.default 0x44).isSome = true ∧
    (PPU.read_ppu PPU.default 0x45).isSome = true ∧
    (PPU.read_ppu PPU.default 0x47).isSome = true ∧
    (PPU.read_ppu PPU.default 0x48).isSome = true ∧
    (PPU.read_ppu PPU.default 0x49).isSome = true ∧
    (PPU.read_ppu PPU.default 0x4A).isSome = true ∧
    (PPU.read_ppu PPU.default 0x4B).isSome = true := by
  decide

/-- Claim C4 counterexample: writing 0x20 to the interrupt flags register and
reading back yields 0, not 0x20, so the round trip does not hold for all 256
byte values. -/
theorem C4_interrupt_roundtrip_counterexample :
    (Interrupt.default.write_flags 0x20).read_flags ≠ 0x20 := by
  decide

set_option maxRecDepth 20000 in
/-- Helper: the interrupt round trip computed on the default state, checked
for every byte value; the flag fields written depend only on the value, so
this transfers definitionally to any starting state. -/
lemma interrupt_read_write_bits :
    ∀ v : Nat, v < 256 →
      (Interrupt.default.write_flags v).read_flags = v % 32 ∧
      (Interrupt.default.write_enable v).read_enable = v % 32 := by
  decide

/-- Claim C4 (amended): the interrupt register round trip preserves exactly
the five low bits: for every byte v, write_flags(v) followed by read_flags()
returns v % 32, and likewise for write_enable and read_enable; the round trip
returns exactly v precisely when v < 0x20. -/
theorem C4_interrupt_roundtrip_low_five (i : Interrupt) (v : Nat) (hv : v < 256) :
    (i.write_flags v).read_flags = v % 32 ∧ (i.write_enable v).read_enable = v % 32 :=
  ⟨(interrupt_read_write_bits v hv).1, (interrupt_read_write_bits v hv).2⟩

/-- Claim C4 witness: the amended round trip evaluated at v = 0x1F. -/
theorem C4_interrupt_roundtrip_low_five_witness :
    (Interrupt.default.write_flags 0x1F).read_flags = 0x1F % 32 ∧
    (Interrupt.default.write_enable 0x1F).read_enable = 0x1F % 32 :=
  C4_interrupt_roundtrip_low_five Interrupt.default 0x1F (by decide)

set_option maxRecDepth 20000 in
/-- Helper: the palette pack and unpack are mutually inverse on every byte. -/
lemma palette_roundtrip_byte :
    ∀ v : Nat, v < 256 → (PPU.write_palette v).map PPU.read_palette = some v := by
  decide

/-- Claim C5: for every byte v and each palette address 0x47 (BGP), 0x48
(OBP0), 0x49 (OBP1), writing v through write_ppu and reading the same
address through read_ppu returns exactly v. -/
theorem C5_palette_roundtrip (p : PPU) (a v : Nat)
    (ha : a = 0x47 ∨ a = 0x48 ∨ a = 0x49) (hv : v < 256) :
    (p.write_ppu a v).bind (fun q => q.read_ppu a) = some v := by
  have h := palette_roundtrip_byte v hv
  rcases ha with rfl | rfl | rfl <;>
  · cases hw : PPU.write_palette v with
    | none => rw [hw] at h; simp at h
    | some pal =>
      rw [hw] at h
      simp only [Option.map_some'] at h
      simp [PPU.write_ppu, PPU.read_ppu, hw, h]

/-- Claim C5 witness: the BGP round trip evaluated at the spec scenario byte
0x27 on a fresh PPU. -/
theorem C5_palette_roundtrip_witness :
    (PPU.default.write_ppu 0x47 0x27).bind (fun q => q.read_ppu 0x47) = some 0x27 :=
  C5_palette_roundtrip PPU.default 0x47 0x27 (Or.inl rfl) (by decide)

/-- Claim C6: write_joypad selects the Buttons bank whenever bit 5 of the
input is set, else the Direction bank whenever bit 4 is set, else leaves the
selector unchanged, and it never modifies any of the eight button flags. -/
theorem C6_joypad_selector (j : Joypad) (v : Nat) :
    (v &&& SELECT_BUTTONS_MASK ≠ 0 →
      (j.write_joypad v).selected_input = SelectedInput.Buttons) ∧
    (v &&& SELECT_BUTTONS_MASK = 0 → v &&& SELECT_DIRECTION_MASK ≠ 0 →
      (j.write_joypad v).selected_input = SelectedInput.Direction) ∧
    (v &&& SELECT_BUTTONS_MASK = 0 → v &&& SELECT_DIRECTION_MASK = 0 →
      (j.write_joypad v).selected_input = j.selected_input) ∧
    (j.write_joypad v).input_up = j.input_up ∧
    (j.write_joypad v).input_down = j.input_down ∧
    (j.write_joypad v).input_left = j.input_left ∧
    (j.write_joypad v).input_right = j.input_right ∧
    (j.write_joypad v).input_a = j.input_a ∧
    (j.write_joypad v).input_b = j.input_b ∧
    (j.write_joypad v).input_start = j.input_start ∧
    (j.write_joypad v).input_select = j.input_select := by
  unfold Joypad.write_joypad
  split_ifs with hb hd
  · exact ⟨fun _ => rfl, fun h1 _ => absurd h1 hb, fun h1 _ => absurd h1 hb,
      rfl, rfl, rfl, rfl, rfl, rfl, rfl, rfl⟩
  · exact ⟨fun h => absurd h hb, fun _ _ => rfl, fun _ h2 => absurd h2 hd,
      rfl, rfl, rfl, rfl, rfl, rfl, rfl, rfl⟩
  · exact ⟨fun h => absurd h hb, fun _ h2 => absurd h2 hd, fun _ _ => rfl,
      rfl, rfl, rfl, rfl, rfl, rfl, rfl, rfl⟩

/-- Claim C6 witness: writing 0x30 (bits 5 and 4 both set) to a fresh joypad
selects the Buttons bank. -/
theorem C6_joypad_selector_witness :
    (Joypad.default.write_joypad 0x30).selected_input = SelectedInput.Buttons :=
  (C6_joypad_selector Joypad.default 0x30).1 (by decide)

/-- Claim C7: read_joypad depends only on the selector and the four flags of
the selected bank: two states agreeing on the selector, and on the direction
flags when Direction is selected and on the button flags when Buttons is
selected, read back the same byte. -/
theorem C7_joypad_bank_isolation (j1 j2 : Joypad)
    (hsel : j1.selected_input = j2.selected_input)
    (hdir : j1.selected_input = SelectedInput.Direction →
      j1.input_right = j2.input_right ∧ j1.input_left = j2.input_left ∧
      j1.input_up = j2.input_up ∧ j1.input_down = j2.input_down)
    (hbtn : j1.selected_input = SelectedInput.Buttons →
      j1.input_a = j2.input_a ∧ j1.input_b = j2.input_b ∧
      j1.input_select = j2.input_select ∧ j1.input_start = j2.input_start) :
    j1.read_joypad = j2.read_joypad := by
  unfold Joypad.read_joypad
  cases h : j1.selected_input with
  | Direction =>
    obtain ⟨e1, e2, e3, e4⟩ := hdir h
    rw [hsel.symm.trans h, e1, e2, e3, e4]
  | Buttons =>
    obtain ⟨e1, e2, e3, e4⟩ := hbtn h
    rw [hsel.symm.trans h, e1, e2, e3, e4]

/-- Claim C7 witness: a fresh joypad (Direction selected, all flags clear)
and the same state with the A button pressed read back the same byte. -/
theorem C7_joypad_bank_isolation_witness :
    Joypad.default.read_joypad =
      Joypad.read_joypad
        ⟨SelectedInput.Direction, false, false, false, false, true, false, false, false⟩ :=
  C7_joypad_bank_isolation Joypad.default
    ⟨SelectedInput.Direction, false, false, false, false, true, false, false, false⟩
    rfl (fun _ => ⟨rfl, rfl, rfl, rfl⟩) (fun hx => absurd hx (by decide))

/-- Claim C8: during a Continue command the core is single-stepped only while
the program counter is not in the breakpoint set: if the program counter is
already a breakpoint when Continue is issued, zero instructions execute, and
no executed instruction address is a member of the breakpoint set, for any
core, breakpoint set, fuel and starting state. -/
theorem C8_continue_stops_before_breakpoint {σ : Type} (stepF : σ → σ)
    (pc : σ → Nat) (bps : Finset Nat) (fuel : Nat) (s : σ) :
    (pc s ∈ bps → continueRun stepF pc bps fuel s = (s, [])) ∧
    (∀ a ∈ (continueRun stepF pc bps fuel s).2, a ∉ bps) := by
  constructor
  · intro h
    cases fuel with
    | zero => rfl
    | succ n => simp [continueRun, h]
  · induction fuel generalizing s with
    | zero =>
      intro a ha
      simp [continueRun] at ha
    | succ n ih =>
      intro a ha
      by_cases h : pc s ∈ bps
      · simp [continueRun, h] at ha
      · simp only [continueRun, if_neg h] at ha
        rcases List.mem_cons.mp ha with rfl | ha2
        · exact h
        · exact ih (stepF s) a ha2

/-- Claim C8 witness: with a successor-step core whose program counter is the
state itself, fuel 3 and breakpoint set containing 5, issuing Continue at
program counter 5 executes zero instructions. -/
theorem C8_continue_stops_before_breakpoint_witness :
    continueRun Nat.succ (fun n => n) ({5} : Finset Nat) 3 5 = (5, []) :=
  (C8_continue_stops_before_breakpoint Nat.succ (fun n => n) {5} 3 5).1 (by decide)

/-- Claim C9: the SetBreakpoint toggle is an involution: applied twice at the
same address it restores the original breakpoint set, and one application
never changes membership of any other address. -/
theorem C9_breakpoint_toggle_involution (bps : Finset Nat) (addr : Nat) :
    setBreakpoint (setBreakpoint bps addr) addr = bps ∧
    (∀ b, b ≠ addr → (b ∈ setBreakpoint bps addr ↔ b ∈ bps)) := by
  constructor
  · by_cases h : addr ∈ bps
    · simp [setBreakpoint, h, Finset.not_mem_erase, Finset.insert_erase]
    · simp [setBreakpoint, h, Finset.mem_insert_self, Finset.erase_insert]
  · intro b hb
    by_cases h : addr ∈ bps
    · simp [setBreakpoint, h, Finset.mem_erase, hb]
    · simp [setBreakpoint, h, Finset.mem_insert, hb]

/-- Claim C9 witness: toggling address 7 twice on the set containing 1 and 2
restores that set, and the first toggle leaves membership of 1 unchanged. -/
theorem C9_breakpoint_toggle_involution_witness :
    setBreakpoint (setBreakpoint ({1, 2} : Finset Nat) 7) 7 = ({1, 2} : Finset Nat) ∧
    (1 ∈ setBreakpoint ({1, 2} : Finset Nat) 7 ↔ 1 ∈ ({1, 2} : Finset Nat)) :=
  ⟨(C9_breakpoint_toggle_involution {1, 2} 7).1,
   (C9_breakpoint_toggle_involution {1, 2} 7).2 1 (by decide)⟩

/-- Claim C10: in every joypad state read_joypad returns a value strictly
below 0x10: only the low nibble of the register ever reads back. -/
theorem C10_read_joypad_low_nibble (j : Joypad) : j.read_joypad < 0x10 := by
  obtain ⟨sel, up, down, left, right, a, b, st, se⟩ := j
  cases sel
  · simp only [Joypad.read_joypad]
    cases right <;> cases left <;> cases up <;> cases down <;>
      norm_num [INPUT_RIGHT_VALUE, INPUT_LEFT_VALUE, INPUT_UP_VALUE, INPUT_DOWN_VALUE]
  · simp only [Joypad.read_joypad]
    cases a <;> cases b <;> cases se <;> cases st <;>
      norm_num [INPUT_A_VALUE, INPUT_B_VALUE, INPUT_SELECT_VALUE, INPUT_START_VALUE,
        INPUT_RIGHT_VALUE, INPUT_LEFT_VALUE, INPUT_UP_VALUE, INPUT_DOWN_VALUE]
